import Mathlib

/-!
Verification of the slidescape asynchronous tile pyramid engine
(src/src/core/viewer_io_file.cpp and src/src/platform/linux_main.cpp).

Shallow embedding conventions:
* C structs become Lean structures keeping the source field names
  (the C field named exists is rendered lexists, since exists is reserved).
* float arithmetic is embedded as exact rational arithmetic over ℚ;
  the (int) cast of a positive float is Int.floor followed by toNat.
* pixel buffers are flat byte arrays, embedded as functions from the
  byte offset to the byte value; memset is a pointwise overwrite.
* a code path that hits a failed ASSERT or a panic() is Outcome.abort.
  ASSERT and panic are defined outside the analyzed sources; they are
  modelled from the spec, which classifies invariant violations as
  unrecoverable abort/panic that never silently continues.
-/

/-- Result of running a code path that may abort the process.
Modelled from the spec: ASSERT and panic (defined outside the analyzed
sources) terminate the process on a violated invariant, so an aborting
path yields no value. -/
inductive Outcome (α : Type) where
  | abort : Outcome α
  | ok : α → Outcome α
deriving DecidableEq

/-- Flat byte array: byte offset to byte value. -/
def pixel_buffer_t : Type := ℕ → ℕ

/-- BYTES_PER_PIXEL: all backends normalize to 4 bytes per pixel. -/
def BYTES_PER_PIXEL : ℕ := 4

/-- IMAGE_BACKEND enum values dispatched on in load_tile_func (isyn
renders IMAGE_BACKEND_ISYNTAX). -/
inductive image_backend_t where
  | tiff
  | openslide
  | dicom
  | isyn
  | stbi
deriving DecidableEq, Inhabited

/-- IMAGE_TYPE enum (only the WSI case is relevant here). -/
inductive image_type_t where
  | wsi
  | none_
deriving DecidableEq, Inhabited

/-- tile_t fields initialized by load_image_from_file. -/
structure tile_t where
  tile_index : ℕ
  tile_x : ℕ
  tile_y : ℕ
deriving DecidableEq, Inhabited

/-- level_image_t: one logical downsample level of an opened image.
The C field exists is rendered lexists. -/
structure level_image_t where
  lexists : Bool
  pyramid_image_index : ℕ
  downsample_factor : ℚ
  tile_count : ℕ
  width_in_tiles : ℕ
  height_in_tiles : ℕ
  tile_width : ℕ
  tile_height : ℕ
  um_per_pixel_x : ℚ
  um_per_pixel_y : ℚ
  x_tile_side_in_um : ℚ
  y_tile_side_in_um : ℚ
  tiles : List tile_t
deriving DecidableEq, Inhabited

/-- A zeroed level_image_t, as produced by memset(image.level_images, 0, ...):
reading a slot that was never filled in yields this record. -/
def level_image_zero : level_image_t :=
  { lexists := false, pyramid_image_index := 0, downsample_factor := 0,
    tile_count := 0, width_in_tiles := 0, height_in_tiles := 0,
    tile_width := 0, tile_height := 0,
    um_per_pixel_x := 0, um_per_pixel_y := 0,
    x_tile_side_in_um := 0, y_tile_side_in_um := 0, tiles := [] }

/-- image_t: the fields of the C struct read or written by the analyzed code. -/
structure image_t where
  type : image_type_t
  backend : image_backend_t
  is_valid : Bool
  is_freshly_loaded : Bool
  is_mpp_known : Bool
  mpp_x : ℚ
  mpp_y : ℚ
  tile_width : ℕ
  tile_height : ℕ
  width_in_pixels : ℕ
  height_in_pixels : ℕ
  width_in_um : ℚ
  height_in_um : ℚ
  level_count : ℕ
  level_images : List level_image_t
deriving DecidableEq, Inhabited

/-- The zero-initialized image_t (image_t image = {}). -/
def image_zero : image_t :=
  { type := .none_, backend := .stbi, is_valid := false,
    is_freshly_loaded := false, is_mpp_known := false,
    mpp_x := 0, mpp_y := 0, tile_width := 0, tile_height := 0,
    width_in_pixels := 0, height_in_pixels := 0,
    width_in_um := 0, height_in_um := 0,
    level_count := 0, level_images := [] }

/-- load_tile_task_t: the decode job (the completion_callback field is
modelled as always being viewer_notify_load_tile_completed, which pushes
its message onto the completion queue unconditionally). -/
structure load_tile_task_t where
  level : ℕ
  tile_x : ℕ
  tile_y : ℕ
deriving DecidableEq, Inhabited

/-- viewer_notify_tile_completed_task_t: the completion message. -/
structure viewer_notify_tile_completed_task_t where
  pixel_memory : Option pixel_buffer_t
  tile_width : ℕ
  tile_height : ℕ
  scale : ℕ
  tile_index : ℕ

/-- What load_tile_func leaves behind: the failure flag, the final value of
temp_memory (none models the freed NULL pointer), and the messages pushed
onto the completion queue via the completion callback. -/
structure load_tile_result where
  failed : Bool
  pixel_memory : Option pixel_buffer_t
  completion_enqueued : List viewer_notify_tile_completed_task_t

/-- The decode results supplied by the backend decoders, which are defined
outside the analyzed sources (tiff_decode_tile, openslide_read_region,
dicom_wsi_decode_tile_to_bgra). none models a NULL return (decode failure);
openslide_read_region fills the caller's buffer and reports no per-tile
failure in this code path. -/
structure backend_decode_results where
  tiff_pixels : Option pixel_buffer_t
  openslide_pixels : pixel_buffer_t
  dicom_pixels : Option pixel_buffer_t

/-- image->level_images + level: the level array is a fixed zeroed array,
so an index that was never filled in reads as the zero record. -/
def task_level_image (image : image_t) (task : load_tile_task_t) : level_image_t :=
  image.level_images.getD task.level level_image_zero

/-- tile_world_pos_x_end - image->width_in_um in load_tile_func. -/
def tile_x_excess (image : image_t) (task : load_tile_task_t) : ℚ :=
  ((task.tile_x : ℚ) + 1) * (task_level_image image task).x_tile_side_in_um - image.width_in_um

/-- tile_world_pos_y_end - image->height_in_um in load_tile_func. -/
def tile_y_excess (image : image_t) (task : load_tile_task_t) : ℚ :=
  ((task.tile_y : ℚ) + 1) * (task_level_image image task).y_tile_side_in_um - image.height_in_um

/-- memset(buf + start, 0, len) on a flat byte array. -/
def memset_zero (buf : pixel_buffer_t) (start len : ℕ) : pixel_buffer_t :=
  fun i => if start ≤ i ∧ i < start + len then 0 else buf i

/-- The per-row partial clear loop of the trimming step: for each
row < n, memset(buf + row * pitch + wbytes, 0, len). -/
def clear_row_tails (pitch wbytes len : ℕ) (buf : pixel_buffer_t) : ℕ → pixel_buffer_t
  | 0 => buf
  | n + 1 => memset_zero (clear_row_tails pitch wbytes len buf n) (n * pitch + wbytes) len

/-- excess_rows = (int)((tile_y_excess / y_tile_side_in_um) * tile_height),
computed only when tile_y_excess > 0 (the cast truncates a positive float,
i.e. takes the floor). -/
def excess_rows (li : level_image_t) (ey : ℚ) : ℕ :=
  if 0 < ey then (Int.floor ((ey / li.y_tile_side_in_um) * (li.tile_height : ℚ))).toNat else 0

/-- excess_pixels = (int)((tile_x_excess / x_tile_side_in_um) * tile_width),
computed only when tile_x_excess > 0. -/
def excess_cols (li : level_image_t) (ex : ℚ) : ℕ :=
  if 0 < ex then (Int.floor ((ex / li.x_tile_side_in_um) * (li.tile_width : ℚ))).toNat else 0

/-- The boundary-trimming step of load_tile_func (present only on the TIFF
backend path): clear the excess row range with one full-width memset, then
clear the tail of each remaining row up to the trimmed width. -/
def tiff_trim (li : level_image_t) (ex ey : ℚ) (buf : pixel_buffer_t) : pixel_buffer_t :=
  let pitch := li.tile_width * BYTES_PER_PIXEL
  let er := excess_rows li ey
  let new_tile_height := if 0 < ey then li.tile_height - er else li.tile_height
  let buf1 := if 0 < ey then memset_zero buf (new_tile_height * pitch) (er * pitch) else buf
  if 0 < ex then
    let ec := excess_cols li ex
    let new_tile_width := li.tile_width - ec
    clear_row_tails pitch (new_tile_width * BYTES_PER_PIXEL) (ec * BYTES_PER_PIXEL) buf1 new_tile_height
  else buf1

/-- Tail of load_tile_func: free temp_memory on failure, build the
completion task (pixel_memory carries the possibly-NULL buffer) and invoke
the completion callback, which enqueues the message on the completion
queue unconditionally. -/
def load_tile_finish (li : level_image_t) (level tile_index : ℕ) (failed : Bool)
    (buf : pixel_buffer_t) : load_tile_result :=
  let pm : Option pixel_buffer_t := if failed then none else some buf
  { failed := failed, pixel_memory := pm,
    completion_enqueued :=
      [{ pixel_memory := pm, tile_width := li.tile_width, tile_height := li.tile_height,
         scale := level, tile_index := tile_index }] }

/-- load_tile_func from src/src/core/viewer_io_file.cpp: fetch the level,
check the invariants (failed ASSERT aborts), dispatch on the backend,
trim (TIFF only), then always hand a completion message to the callback. -/
def load_tile_func (image : image_t) (task : load_tile_task_t)
    (dec : backend_decode_results) : Outcome load_tile_result :=
  let li := task_level_image image task
  if li.lexists = false then .abort
  else
    let tile_index := task.tile_y * li.width_in_tiles + task.tile_x
    if ¬ (0 < li.x_tile_side_in_um ∧ 0 < li.y_tile_side_in_um) then .abort
    else
      let ex := tile_x_excess image task
      let ey := tile_y_excess image task
      let temp0 : pixel_buffer_t := fun _ => 255
      if image.type ≠ image_type_t.wsi then .abort
      else
        match image.backend with
        | .tiff =>
          match dec.tiff_pixels with
          | some px => .ok (load_tile_finish li task.level tile_index false (tiff_trim li ex ey px))
          | none => .ok (load_tile_finish li task.level tile_index true (tiff_trim li ex ey temp0))
        | .openslide => .ok (load_tile_finish li task.level tile_index false dec.openslide_pixels)
        | .dicom =>
          match dec.dicom_pixels with
          | some px => .ok (load_tile_finish li task.level tile_index false px)
          | none => .ok (load_tile_finish li task.level tile_index true temp0)
        | .isyn => .abort
        | .stbi => .abort

/-- Reads one byte of the pixel buffer carried by the result, if any. -/
def result_buffer_byte (o : Outcome load_tile_result) (i : ℕ) : Option ℕ :=
  match o with
  | .abort => none
  | .ok r => r.pixel_memory.map (fun b => b i)

/-- Number of completion messages the job pushed onto the completion queue. -/
def completion_count (o : Outcome load_tile_result) : ℕ :=
  match o with
  | .abort => 0
  | .ok r => r.completion_enqueued.length

/-! ## OpenSlide image opening: load_wsi and load_image_from_file -/

/-- WSI_TILE_DIM, defined outside the analyzed sources.
Modelled from the spec: the scenarios fix the tile size at 256. -/
def WSI_TILE_DIM : ℕ := 256

/-- WSI_MAX_LEVELS, defined outside the analyzed sources; any bound large
enough for the scenarios works, the analyzed checks only compare against it. -/
def WSI_MAX_LEVELS : ℕ := 16

/-- What a successfully opened OpenSlide handle reports for one native
level. The analyzed code derives downsample_level as
(i32) roundf(log2f(openslide_get_level_downsample(...))); the rounded
value is taken as the input of the model (the float log/round themselves
live outside the analyzed sources). -/
structure openslide_level_report where
  width : ℕ
  height : ℕ
  downsample_level : ℕ
deriving DecidableEq, Inhabited

/-- What a successfully opened OpenSlide handle reports for the whole
image: level-0 dimensions, the parsed values of the openslide.mpp-x and
openslide.mpp-y properties (none when the property is absent; atof of an
unparseable string yields 0, which is covered by a non-positive value),
and the native level list. -/
structure openslide_report where
  width : ℕ
  height : ℕ
  mpp_x_prop : Option ℚ
  mpp_y_prop : Option ℚ
  levels : List openslide_level_report
deriving DecidableEq, Inhabited

/-- wsi_level_t as filled in by the per-level loop of load_wsi. -/
structure wsi_level_t where
  width : ℕ
  height : ℕ
  width_in_tiles : ℕ
  height_in_tiles : ℕ
  tile_width : ℕ
  tile_height : ℕ
  downsample_level : ℕ
  downsample_factor : ℚ
  um_per_pixel_x : ℚ
  um_per_pixel_y : ℚ
  x_tile_side_in_um : ℚ
  y_tile_side_in_um : ℚ
  tile_count : ℕ
deriving DecidableEq, Inhabited

/-- wsi_t as filled in by load_wsi. -/
structure wsi_t where
  width : ℕ
  height : ℕ
  tile_width : ℕ
  tile_height : ℕ
  mpp_x : ℚ
  mpp_y : ℚ
  is_mpp_known : Bool
  max_downsample_level : ℕ
  levels : List wsi_level_t
deriving DecidableEq, Inhabited

/-- One branch of the mpp-property parsing in load_wsi: if the property
string exists and atof gives a positive value, take it and mark the mpp
as known, otherwise keep the current value and flag. -/
def parse_mpp (prop : Option ℚ) (cur : ℚ) (known : Bool) : ℚ × Bool :=
  match prop with
  | none => (cur, known)
  | some v => if 0 < v then (v, true) else (cur, known)

/-- The body of the per-level loop of load_wsi. -/
def make_wsi_level (mpp_x mpp_y : ℚ) (l : openslide_level_report) : wsi_level_t :=
  let wit := l.width / WSI_TILE_DIM + (if l.width % WSI_TILE_DIM ≠ 0 then 1 else 0)
  let hit := l.height / WSI_TILE_DIM + (if l.height % WSI_TILE_DIM ≠ 0 then 1 else 0)
  let factor : ℚ := 2 ^ l.downsample_level
  { width := l.width, height := l.height,
    width_in_tiles := wit, height_in_tiles := hit,
    tile_width := WSI_TILE_DIM, tile_height := WSI_TILE_DIM,
    downsample_level := l.downsample_level, downsample_factor := factor,
    um_per_pixel_x := factor * mpp_x, um_per_pixel_y := factor * mpp_y,
    x_tile_side_in_um := factor * mpp_x * (WSI_TILE_DIM : ℚ),
    y_tile_side_in_um := factor * mpp_y * (WSI_TILE_DIM : ℚ),
    tile_count := wit * hit }

/-- load_wsi from src/src/core/viewer_io_file.cpp, on the path where
openslide_open succeeded with no error string: panic when more levels
are reported than WSI_MAX_LEVELS, abort on a zero dimension (ASSERT),
parse the mpp properties with 1.0 defaults, then fill in each level and
accumulate the maximum downsample level (the wsi struct starts zeroed). -/
def load_wsi (rep : openslide_report) : Outcome wsi_t :=
  if WSI_MAX_LEVELS < rep.levels.length then .abort
  else if rep.width = 0 ∨ rep.height = 0 then .abort
  else if rep.levels.any (fun l => l.width = 0 ∨ l.height = 0) then .abort
  else
    let px := parse_mpp rep.mpp_x_prop 1 false
    let py := parse_mpp rep.mpp_y_prop 1 px.2
    .ok { width := rep.width, height := rep.height,
          tile_width := WSI_TILE_DIM, tile_height := WSI_TILE_DIM,
          mpp_x := px.1, mpp_y := py.1, is_mpp_known := py.2,
          max_downsample_level := rep.levels.foldl (fun acc l => max l.downsample_level acc) 0,
          levels := rep.levels.map (make_wsi_level px.1 py.1) }

/-- The inner scan of the pyramid level mapper: the first native level at
index ≥ start whose downsample level equals the wanted logical level. -/
def find_wsi_level (levels : List wsi_level_t) (wanted start : ℕ) : Option ℕ :=
  (List.range' start (levels.length - start)).find?
    (fun i => (levels.getD i default).downsample_level = wanted)

/-- The matched branch of the mapper: copy the native level geometry and
physical scale, and fill the tile array with self-referential indices. -/
def make_matched (wsi : wsi_t) (idx : ℕ) : level_image_t :=
  let fl := wsi.levels.getD idx default
  { lexists := true, pyramid_image_index := idx,
    downsample_factor := fl.downsample_factor,
    tile_count := fl.tile_count,
    width_in_tiles := fl.width_in_tiles, height_in_tiles := fl.height_in_tiles,
    tile_width := fl.tile_width, tile_height := fl.tile_height,
    um_per_pixel_x := fl.um_per_pixel_x, um_per_pixel_y := fl.um_per_pixel_y,
    x_tile_side_in_um := fl.x_tile_side_in_um, y_tile_side_in_um := fl.y_tile_side_in_um,
    tiles := (List.range fl.tile_count).map
      (fun i => { tile_index := i, tile_x := i % fl.width_in_tiles,
                  tile_y := i / fl.width_in_tiles }) }

/-- The placeholder branch of the mapper: exists = false, tile pixel
dimensions inherited from the image base, physical scale derived from the
base mpp and the wanted downsample level; grid fields stay zeroed. -/
def make_placeholder (tile_w tile_h : ℕ) (mpp_x mpp_y : ℚ) (base_tile_w base_tile_h : ℕ)
    (l : ℕ) : level_image_t :=
  let factor : ℚ := 2 ^ l
  { lexists := false, pyramid_image_index := 0,
    downsample_factor := factor,
    tile_count := 0, width_in_tiles := 0, height_in_tiles := 0,
    tile_width := tile_w, tile_height := tile_h,
    um_per_pixel_x := mpp_x * factor, um_per_pixel_y := mpp_y * factor,
    x_tile_side_in_um := mpp_x * factor * (base_tile_w : ℚ),
    y_tile_side_in_um := mpp_y * factor * (base_tile_h : ℚ),
    tiles := [] }

/-- The pyramid level mapper loop of load_image_from_file: n remaining
logical levels, current logical level l, scan cursor next (advanced past
a matched native level so it is never reused). -/
def build_levels (wsi : wsi_t) (tile_w tile_h : ℕ) (mpp_x mpp_y : ℚ) :
    ℕ → ℕ → ℕ → List level_image_t
  | 0, _, _ => []
  | n + 1, l, next =>
    match find_wsi_level wsi.levels l next with
    | some idx =>
      make_matched wsi idx :: build_levels wsi tile_w tile_h mpp_x mpp_y n (l + 1) (idx + 1)
    | none =>
      make_placeholder tile_w tile_h mpp_x mpp_y
            ((wsi.levels.headD default).tile_width) ((wsi.levels.headD default).tile_height) l ::
        build_levels wsi tile_w tile_h mpp_x mpp_y n (l + 1) next

/-- The OpenSlide branch of load_image_from_file, after a successful
openslide_open: copy the wsi geometry into the image, abort on a failed
ASSERT or panic (level ladder undersized, too many levels), and build the
dense logical level stack. -/
def load_image_openslide (rep : openslide_report) : Outcome image_t :=
  match load_wsi rep with
  | .abort => .abort
  | .ok wsi =>
    let image0 : image_t :=
      { image_zero with
        type := .wsi, backend := .openslide, is_freshly_loaded := true,
        mpp_x := wsi.mpp_x, mpp_y := wsi.mpp_y, is_mpp_known := wsi.is_mpp_known,
        tile_width := wsi.tile_width, tile_height := wsi.tile_height,
        width_in_pixels := wsi.width, height_in_pixels := wsi.height,
        width_in_um := (wsi.width : ℚ) * wsi.mpp_x,
        height_in_um := (wsi.height : ℚ) * wsi.mpp_y }
    if 0 < (wsi.levels.headD default).x_tile_side_in_um then
      if 0 < wsi.levels.length then
        let level_count := wsi.max_downsample_level + 1
        if level_count < wsi.levels.length then .abort
        else if WSI_MAX_LEVELS < level_count then .abort
        else
          .ok { image0 with
                level_count := level_count,
                level_images :=
                  build_levels wsi image0.tile_width image0.tile_height wsi.mpp_x wsi.mpp_y
                    level_count 0 0,
                is_valid := true }
      else .abort
    else .abort

/-! ## Worker pool: worker_thread from src/src/platform/linux_main.cpp -/

/-- Position of a worker thread inside its loop. working j is the point
where do_worker_work has picked job j off the queue and is executing it. -/
inductive worker_pc where
  | loopTop
  | blocked
  | afterWait
  | working (job : ℕ)
deriving DecidableEq, Inhabited

/-- State of one worker together with the decode queue it serves and the
jobs it has completed.
Modelled from the spec: the work queue internals (is_queue_work_waiting_to_start,
do_worker_work, the semaphore) are defined outside the analyzed sources; the
queue is a job list, do_worker_work pops and executes the next job if any, and
the semaphore wait returns once a job is available. -/
structure worker_state where
  pc : worker_pc
  queue : List ℕ
  done : List ℕ
deriving DecidableEq, Inhabited

/-- One step of the worker loop of worker_thread, for the worker with the
given logical_thread_index under the given global_active_worker_thread_count:
a disabled worker (index > active count) sleeps and re-checks, both at the
top of the loop and after waking from the semaphore; an enabled worker
blocks when no work is waiting, otherwise runs one job to completion. -/
def worker_step (idx active : ℕ) (s : worker_state) : worker_state :=
  match s.pc with
  | .loopTop =>
    if active < idx then s
    else
      match s.queue with
      | [] => { s with pc := .blocked }
      | j :: rest => { s with pc := .working j, queue := rest }
  | .blocked =>
    match s.queue with
    | [] => s
    | _ => { s with pc := .afterWait }
  | .afterWait =>
    if active < idx then { s with pc := .loopTop }
    else
      match s.queue with
      | [] => { s with pc := .loopTop }
      | j :: rest => { s with pc := .working j, queue := rest }
  | .working j => { s with pc := .loopTop, done := s.done ++ [j] }

/-! ## Concrete instances used by witnesses and counterexamples -/

/-- Backend results where every decode call fails (NULL returns). -/
def dec0 : backend_decode_results :=
  { tiff_pixels := none, openslide_pixels := fun _ => 0, dicom_pixels := none }

/-- Backend results where the TIFF decode fails. -/
def decFail : backend_decode_results :=
  { tiff_pixels := none, openslide_pixels := fun _ => 7, dicom_pixels := none }

/-- Backend results where every byte decodes to 7. -/
def decOk : backend_decode_results :=
  { tiff_pixels := some (fun _ => 7), openslide_pixels := fun _ => 7, dicom_pixels := none }

/-- A 2x2-tile existing level with 1 micron per pixel. -/
def liT : level_image_t :=
  { lexists := true, pyramid_image_index := 0, downsample_factor := 1,
    tile_count := 4, width_in_tiles := 2, height_in_tiles := 2,
    tile_width := 2, tile_height := 2,
    um_per_pixel_x := 1, um_per_pixel_y := 1,
    x_tile_side_in_um := 2, y_tile_side_in_um := 2, tiles := [] }

/-- A 3x3-micron TIFF-backed image whose last tile row and column stick out
by 1 micron (1 pixel) past the image extent. -/
def imgT : image_t :=
  { type := .wsi, backend := .tiff, is_valid := true,
    is_freshly_loaded := false, is_mpp_known := true,
    mpp_x := 1, mpp_y := 1, tile_width := 2, tile_height := 2,
    width_in_pixels := 3, height_in_pixels := 3,
    width_in_um := 3, height_in_um := 3,
    level_count := 1, level_images := [liT] }

/-- The same image served by the OpenSlide backend. -/
def imgO : image_t :=
  { type := .wsi, backend := .openslide, is_valid := true,
    is_freshly_loaded := false, is_mpp_known := true,
    mpp_x := 1, mpp_y := 1, tile_width := 2, tile_height := 2,
    width_in_pixels := 3, height_in_pixels := 3,
    width_in_um := 3, height_in_um := 3,
    level_count := 1, level_images := [liT] }

/-- An image whose only logical level is a synthesized placeholder. -/
def imgP : image_t :=
  { type := .wsi, backend := .openslide, is_valid := true,
    is_freshly_loaded := false, is_mpp_known := true,
    mpp_x := 1, mpp_y := 1, tile_width := 2, tile_height := 2,
    width_in_pixels := 3, height_in_pixels := 3,
    width_in_um := 3, height_in_um := 3,
    level_count := 1, level_images := [level_image_zero] }

/-- The bottom-right edge tile of imgT / imgO. -/
def taskE : load_tile_task_t := { level := 0, tile_x := 1, tile_y := 1 }

/-- An interior tile. -/
def taskI : load_tile_task_t := { level := 0, tile_x := 0, tile_y := 0 }

/-- An OpenSlide report with a sparse level ladder: native levels at
downsample factors 1 and 4, nothing at factor 2. -/
def repA : openslide_report :=
  { width := 1000, height := 700, mpp_x_prop := some (1/4), mpp_y_prop := none,
    levels := [{ width := 1000, height := 700, downsample_level := 0 },
               { width := 250, height := 175, downsample_level := 2 }] }

/-- The wsi_level_t load_wsi builds for native level 0 of repA. -/
def lvlA0 : wsi_level_t :=
  { width := 1000, height := 700, width_in_tiles := 4, height_in_tiles := 3,
    tile_width := 256, tile_height := 256, downsample_level := 0, downsample_factor := 1,
    um_per_pixel_x := 1/4, um_per_pixel_y := 1,
    x_tile_side_in_um := 64, y_tile_side_in_um := 256, tile_count := 12 }

/-- The wsi_level_t load_wsi builds for native level 1 of repA. -/
def lvlA1 : wsi_level_t :=
  { width := 250, height := 175, width_in_tiles := 1, height_in_tiles := 1,
    tile_width := 256, tile_height := 256, downsample_level := 2, downsample_factor := 4,
    um_per_pixel_x := 1, um_per_pixel_y := 4,
    x_tile_side_in_um := 256, y_tile_side_in_um := 1024, tile_count := 1 }

/-- The wsi_t load_wsi builds for repA. -/
def wsiA : wsi_t :=
  { width := 1000, height := 700, tile_width := 256, tile_height := 256,
    mpp_x := 1/4, mpp_y := 1, is_mpp_known := true, max_downsample_level := 2,
    levels := [lvlA0, lvlA1] }

/-- Logical level 0 of the image opened from repA (matched to native 0). -/
def liA0 : level_image_t :=
  { lexists := true, pyramid_image_index := 0, downsample_factor := 1,
    tile_count := 12, width_in_tiles := 4, height_in_tiles := 3,
    tile_width := 256, tile_height := 256,
    um_per_pixel_x := 1/4, um_per_pixel_y := 1,
    x_tile_side_in_um := 64, y_tile_side_in_um := 256,
    tiles := (List.range 12).map
      (fun i => { tile_index := i, tile_x := i % 4, tile_y := i / 4 }) }

/-- Logical level 1 of the image opened from repA (synthesized placeholder). -/
def liA1 : level_image_t :=
  { lexists := false, pyramid_image_index := 0, downsample_factor := 2,
    tile_count := 0, width_in_tiles := 0, height_in_tiles := 0,
    tile_width := 256, tile_height := 256,
    um_per_pixel_x := 1/2, um_per_pixel_y := 2,
    x_tile_side_in_um := 128, y_tile_side_in_um := 512, tiles := [] }

/-- Logical level 2 of the image opened from repA (matched to native 1). -/
def liA2 : level_image_t :=
  { lexists := true, pyramid_image_index := 1, downsample_factor := 4,
    tile_count := 1, width_in_tiles := 1, height_in_tiles := 1,
    tile_width := 256, tile_height := 256,
    um_per_pixel_x := 1, um_per_pixel_y := 4,
    x_tile_side_in_um := 256, y_tile_side_in_um := 1024,
    tiles := (List.range 1).map
      (fun i => { tile_index := i, tile_x := i % 1, tile_y := i / 1 }) }

/-- The image load_image_from_file opens from repA. -/
def imageA : image_t :=
  { type := .wsi, backend := .openslide, is_valid := true,
    is_freshly_loaded := true, is_mpp_known := true,
    mpp_x := 1/4, mpp_y := 1, tile_width := 256, tile_height := 256,
    width_in_pixels := 1000, height_in_pixels := 700,
    width_in_um := 250, height_in_um := 700,
    level_count := 3, level_images := [liA0, liA1, liA2] }

/-- An OpenSlide report with two native levels both at downsample factor 1:
more native levels (2) than computed logical levels (1). -/
def repB : openslide_report :=
  { width := 1000, height := 700, mpp_x_prop := none, mpp_y_prop := none,
    levels := [{ width := 1000, height := 700, downsample_level := 0 },
               { width := 900, height := 700, downsample_level := 0 }] }

/-- The wsi_t load_wsi builds for repB. -/
def wsiB : wsi_t :=
  { width := 1000, height := 700, tile_width := 256, tile_height := 256,
    mpp_x := 1, mpp_y := 1, is_mpp_known := false, max_downsample_level := 0,
    levels := [{ width := 1000, height := 700, width_in_tiles := 4, height_in_tiles := 3,
                 tile_width := 256, tile_height := 256, downsample_level := 0,
                 downsample_factor := 1, um_per_pixel_x := 1, um_per_pixel_y := 1,
                 x_tile_side_in_um := 256, y_tile_side_in_um := 256, tile_count := 12 },
               { width := 900, height := 700, width_in_tiles := 4, height_in_tiles := 3,
                 tile_width := 256, tile_height := 256, downsample_level := 0,
                 downsample_factor := 1, um_per_pixel_x := 1, um_per_pixel_y := 1,
                 x_tile_side_in_um := 256, y_tile_side_in_um := 256, tile_count := 12 }] }

/-! ## Helper lemmas -/

lemma wsi_tile_dim_pos : 0 < WSI_TILE_DIM := by decide

/-- The tile grid computation of load_wsi is the ceiling division. -/
lemma grid_eq_ceil_div (w : ℕ) :
    w / WSI_TILE_DIM + (if w % WSI_TILE_DIM ≠ 0 then 1 else 0) =
      (w + WSI_TILE_DIM - 1) / WSI_TILE_DIM := by
  simp only [WSI_TILE_DIM]
  by_cases h : w % 256 = 0 <;> simp [h] <;> omega

lemma find_wsi_level_some (levels : List wsi_level_t) (wanted start idx : ℕ)
    (h : find_wsi_level levels wanted start = some idx) :
    start ≤ idx ∧ idx < levels.length ∧
      (levels.getD idx default).downsample_level = wanted := by
  unfold find_wsi_level at h
  have hmem := List.mem_of_find?_eq_some h
  have hp := List.find?_some h
  rw [List.mem_range'_1] at hmem
  refine ⟨hmem.1, by omega, by simpa using hp⟩

lemma build_levels_length (wsi : wsi_t) (tw th : ℕ) (mx my : ℚ) :
    ∀ n l next, (build_levels wsi tw th mx my n l next).length = n := by
  intro n
  induction n with
  | zero => intro l next; rfl
  | succ n ih =>
    intro l next
    rw [build_levels]
    cases h : find_wsi_level wsi.levels l next <;> simp [ih]

/-- Every element of the built level stack is either a placeholder or a
matched level at a valid native index. -/
lemma build_levels_mem (wsi : wsi_t) (tw th : ℕ) (mx my : ℚ)
    (P : level_image_t → Prop)
    (hmatch : ∀ idx, idx < wsi.levels.length → P (make_matched wsi idx))
    (hph : ∀ l, P (make_placeholder tw th mx my
      ((wsi.levels.headD default).tile_width) ((wsi.levels.headD default).tile_height) l)) :
    ∀ n l next li, li ∈ build_levels wsi tw th mx my n l next → P li := by
  intro n
  induction n with
  | zero => intro l next li hli; simp [build_levels] at hli
  | succ n ih =>
    intro l next li hli
    rw [build_levels] at hli
    cases h : find_wsi_level wsi.levels l next with
    | some idx =>
      rw [h] at hli
      rcases List.mem_cons.mp hli with h1 | h1
      · exact h1 ▸ hmatch idx (find_wsi_level_some _ _ _ _ h).2.1
      · exact ih _ _ _ h1
    | none =>
      rw [h] at hli
      rcases List.mem_cons.mp hli with h1 | h1
      · exact h1 ▸ hph l
      · exact ih _ _ _ h1

/-- Matched native indices in the built stack are bounded below by the
scan cursor. -/
lemma build_levels_cursor_le (wsi : wsi_t) (tw th : ℕ) (mx my : ℚ) :
    ∀ n l next li, li ∈ build_levels wsi tw th mx my n l next →
      li.lexists = true → next ≤ li.pyramid_image_index := by
  intro n
  induction n with
  | zero => intro l next li hli; simp [build_levels] at hli
  | succ n ih =>
    intro l next li hli hex
    rw [build_levels] at hli
    cases h : find_wsi_level wsi.levels l next with
    | some idx =>
      rw [h] at hli
      rcases List.mem_cons.mp hli with h1 | h1
      · subst h1
        simpa [make_matched] using (find_wsi_level_some _ _ _ _ h).1
      · have := ih _ _ _ h1 hex
        have := (find_wsi_level_some _ _ _ _ h).1
        omega
    | none =>
      rw [h] at hli
      rcases List.mem_cons.mp hli with h1 | h1
      · subst h1; simp [make_placeholder] at hex
      · exact ih _ _ _ h1 hex

/-- The level mapper never matches the same native level twice: along the
stack, matched native indices strictly increase. -/
lemma build_levels_pairwise (wsi : wsi_t) (tw th : ℕ) (mx my : ℚ) :
    ∀ n l next, (build_levels wsi tw th mx my n l next).Pairwise
      (fun a b => a.lexists = true → b.lexists = true →
        a.pyramid_image_index < b.pyramid_image_index) := by
  intro n
  induction n with
  | zero => intro l next; simp [build_levels]
  | succ n ih =>
    intro l next
    rw [build_levels]
    cases h : find_wsi_level wsi.levels l next with
    | some idx =>
      refine List.Pairwise.cons ?_ (ih _ _)
      intro b hb hexa hexb
      have hcur := build_levels_cursor_le wsi tw th mx my n (l + 1) (idx + 1) b hb hexb
      simp [make_matched]
      omega
    | none =>
      refine List.Pairwise.cons ?_ (ih _ _)
      intro b hb hexa
      simp [make_placeholder] at hexa

/-- Positional characterization of the built stack: the element at offset k
is logical level l + k, with downsample factor 2 ^ (l + k), and a
placeholder inherits the base tile dimensions and scales the base mpp. -/
lemma build_levels_get? (wsi : wsi_t) (tw th : ℕ) (mx my : ℚ)
    (hfac : ∀ idx, idx < wsi.levels.length →
      (wsi.levels.getD idx default).downsample_factor =
        2 ^ (wsi.levels.getD idx default).downsample_level) :
    ∀ n l next k li, (build_levels wsi tw th mx my n l next)[k]? = some li →
      (li.downsample_factor = 2 ^ (l + k) ∧
        (li.lexists = false →
          li.tile_width = tw ∧ li.tile_height = th ∧
          li.um_per_pixel_x = mx * 2 ^ (l + k) ∧
          li.um_per_pixel_y = my * 2 ^ (l + k))) := by
  intro n
  induction n with
  | zero => intro l next k li hli; simp [build_levels] at hli
  | succ n ih =>
    intro l next k li hli
    rw [build_levels] at hli
    cases h : find_wsi_level wsi.levels l next with
    | some idx =>
      rw [h] at hli
      cases k with
      | zero =>
        simp only [List.getElem?_cons_zero, Option.some.injEq] at hli
        subst hli
        obtain ⟨-, hlt, hdl⟩ := find_wsi_level_some _ _ _ _ h
        constructor
        · have h3 := hfac idx hlt
          rw [hdl] at h3
          simpa [make_matched] using h3
        · intro hfalse; simp [make_matched] at hfalse
      | succ k =>
        simp only [List.getElem?_cons_succ] at hli
        have := ih (l + 1) (idx + 1) k li hli
        constructor
        · rw [this.1]; ring_nf
        · intro hfalse
          have h2 := this.2 hfalse
          refine ⟨h2.1, h2.2.1, ?_, ?_⟩
          · rw [h2.2.2.1]; ring_nf
          · rw [h2.2.2.2]; ring_nf
    | none =>
      rw [h] at hli
      cases k with
      | zero =>
        simp only [List.getElem?_cons_zero, Option.some.injEq] at hli
        subst hli
        refine ⟨by simp [make_placeholder], fun _ => ?_⟩
        simp [make_placeholder]
      | succ k =>
        simp only [List.getElem?_cons_succ] at hli
        have := ih (l + 1) next k li hli
        constructor
        · rw [this.1]; ring_nf
        · intro hfalse
          have h2 := this.2 hfalse
          refine ⟨h2.1, h2.2.1, ?_, ?_⟩
          · rw [h2.2.2.1]; ring_nf
          · rw [h2.2.2.2]; ring_nf

/-- What a successful load_wsi returns, in terms of the report. -/
lemma load_wsi_ok (rep : openslide_report) (wsi : wsi_t) (h : load_wsi rep = .ok wsi) :
    wsi.width = rep.width ∧ wsi.height = rep.height ∧
    wsi.tile_width = WSI_TILE_DIM ∧ wsi.tile_height = WSI_TILE_DIM ∧
    wsi.mpp_x = (parse_mpp rep.mpp_x_prop 1 false).1 ∧
    wsi.mpp_y = (parse_mpp rep.mpp_y_prop 1 (parse_mpp rep.mpp_x_prop 1 false).2).1 ∧
    wsi.is_mpp_known = (parse_mpp rep.mpp_y_prop 1 (parse_mpp rep.mpp_x_prop 1 false).2).2 ∧
    wsi.levels = rep.levels.map (make_wsi_level wsi.mpp_x wsi.mpp_y) := by
  unfold load_wsi at h
  split_ifs at h
  injection h with h
  subst h
  simp

/-- Destructuring a successful OpenSlide image open: the image is built
from a successful load_wsi and carries the built level stack. -/
lemma load_image_ok_destruct (rep : openslide_report) (image : image_t)
    (h : load_image_openslide rep = .ok image) :
    ∃ wsi, load_wsi rep = .ok wsi ∧
      image.mpp_x = wsi.mpp_x ∧ image.mpp_y = wsi.mpp_y ∧
      image.is_mpp_known = wsi.is_mpp_known ∧
      image.tile_width = wsi.tile_width ∧ image.tile_height = wsi.tile_height ∧
      image.width_in_um = (wsi.width : ℚ) * wsi.mpp_x ∧
      image.height_in_um = (wsi.height : ℚ) * wsi.mpp_y ∧
      image.level_count = wsi.max_downsample_level + 1 ∧
      image.is_valid = true ∧
      image.level_images =
        build_levels wsi wsi.tile_width wsi.tile_height wsi.mpp_x wsi.mpp_y
          (wsi.max_downsample_level + 1) 0 0 := by
  unfold load_image_openslide at h
  cases hw : load_wsi rep with
  | abort => rw [hw] at h; exact absurd h (by simp)
  | ok wsi =>
    rw [hw] at h
    simp only at h
    split_ifs at h
    injection h with h
    subst h
    exact ⟨wsi, rfl, by simp [image_zero]⟩

/-- A flat byte index row * pitch + b with b < pitch lies before block n
exactly when its row does. -/
lemma row_block_lt {pitch b : ℕ} (hb : b < pitch) (row n : ℕ) :
    row * pitch + b < n * pitch ↔ row < n := by
  constructor
  · intro h
    by_contra hc
    push_neg at hc
    have hmul : n * pitch ≤ row * pitch := Nat.mul_le_mul_right _ hc
    omega
  · intro h
    have hmul : (row + 1) * pitch ≤ n * pitch := Nat.mul_le_mul_right _ h
    rw [Nat.succ_mul] at hmul
    omega

lemma memset_zero_apply (buf : pixel_buffer_t) (start len i : ℕ) :
    memset_zero buf start len i = if start ≤ i ∧ i < start + len then 0 else buf i := rfl

/-- Pointwise description of the per-row clear loop: at byte b of row r it
zeroes exactly the rows below n within the cleared column band. -/
lemma clear_row_tails_apply {pitch wbytes len : ℕ} (buf : pixel_buffer_t)
    (hwl : wbytes + len ≤ pitch) :
    ∀ n row b, b < pitch →
      clear_row_tails pitch wbytes len buf n (row * pitch + b) =
        if row < n ∧ wbytes ≤ b ∧ b < wbytes + len then 0
        else buf (row * pitch + b) := by
  intro n
  induction n with
  | zero => intro row b hb; simp [clear_row_tails]
  | succ n ih =>
    intro row b hb
    have hkey : (n * pitch + wbytes ≤ row * pitch + b ∧
        row * pitch + b < n * pitch + wbytes + len) ↔
        (row = n ∧ wbytes ≤ b ∧ b < wbytes + len) := by
      rcases Nat.lt_trichotomy row n with hc | hc | hc
      · have hmul : (row + 1) * pitch ≤ n * pitch := Nat.mul_le_mul_right _ hc
        rw [Nat.succ_mul] at hmul
        constructor
        · intro hin; omega
        · intro hin; omega
      · subst hc
        constructor
        · intro hin; omega
        · intro hin; omega
      · have hmul : (n + 1) * pitch ≤ row * pitch := Nat.mul_le_mul_right _ hc
        rw [Nat.succ_mul] at hmul
        constructor
        · intro hin; omega
        · intro hin; omega
    rw [clear_row_tails, memset_zero_apply, ih row b hb]
    by_cases hrn : row = n ∧ wbytes ≤ b ∧ b < wbytes + len
    · rw [if_pos (hkey.mpr hrn)]
      rw [if_pos ⟨by omega, hrn.2.1, hrn.2.2⟩]
    · rw [if_neg (fun hin => hrn (hkey.mp hin))]
      by_cases hlt : row < n ∧ wbytes ≤ b ∧ b < wbytes + len
      · rw [if_pos hlt, if_pos ⟨by omega, hlt.2.1, hlt.2.2⟩]
      · rw [if_neg hlt, if_neg (by omega)]

/-- Full pointwise description of the trimming step: inside the buffer, a
byte is zeroed exactly when it lies in the excess row range or in the
excess column band, and is otherwise untouched. -/
lemma tiff_trim_apply (li : level_image_t) (ex ey : ℚ) (buf : pixel_buffer_t)
    (her : excess_rows li ey ≤ li.tile_height)
    (hec : excess_cols li ex ≤ li.tile_width)
    (row b : ℕ) (hrow : row < li.tile_height)
    (hb : b < li.tile_width * BYTES_PER_PIXEL) :
    tiff_trim li ex ey buf (row * (li.tile_width * BYTES_PER_PIXEL) + b) =
      if li.tile_height - excess_rows li ey ≤ row ∨
          (li.tile_width - excess_cols li ex) * BYTES_PER_PIXEL ≤ b then 0
      else buf (row * (li.tile_width * BYTES_PER_PIXEL) + b) := by
  have hwl : (li.tile_width - excess_cols li ex) * BYTES_PER_PIXEL +
      excess_cols li ex * BYTES_PER_PIXEL = li.tile_width * BYTES_PER_PIXEL := by
    rw [← Nat.add_mul, Nat.sub_add_cancel hec]
  have hth : (li.tile_height - excess_rows li ey) * (li.tile_width * BYTES_PER_PIXEL) +
      excess_rows li ey * (li.tile_width * BYTES_PER_PIXEL) =
      li.tile_height * (li.tile_width * BYTES_PER_PIXEL) := by
    rw [← Nat.add_mul, Nat.sub_add_cancel her]
  have hidx : row * (li.tile_width * BYTES_PER_PIXEL) + b <
      li.tile_height * (li.tile_width * BYTES_PER_PIXEL) :=
    (row_block_lt hb row li.tile_height).mpr hrow
  unfold tiff_trim
  by_cases hey : 0 < ey <;> by_cases hex : 0 < ex
  · simp only [hey, hex, if_pos]
    rw [clear_row_tails_apply _ (le_of_eq hwl) _ _ _ hb, memset_zero_apply]
    have hmem : ((li.tile_height - excess_rows li ey) * (li.tile_width * BYTES_PER_PIXEL) ≤
        row * (li.tile_width * BYTES_PER_PIXEL) + b ∧
        row * (li.tile_width * BYTES_PER_PIXEL) + b <
          (li.tile_height - excess_rows li ey) * (li.tile_width * BYTES_PER_PIXEL) +
            excess_rows li ey * (li.tile_width * BYTES_PER_PIXEL)) ↔
        (li.tile_height - excess_rows li ey ≤ row) := by
      rw [hth]
      constructor
      · intro hin
        by_contra hc
        push_neg at hc
        have := (row_block_lt hb row (li.tile_height - excess_rows li ey)).mpr hc
        omega
      · intro hge
        have := (row_block_lt hb row (li.tile_height - excess_rows li ey)).not.mpr (by omega)
        omega
    by_cases hr : li.tile_height - excess_rows li ey ≤ row
    · rw [if_neg, if_pos (hmem.mpr hr), if_pos (Or.inl hr)]
      intro hcl
      have := hcl.1
      omega
    · by_cases hcb : (li.tile_width - excess_cols li ex) * BYTES_PER_PIXEL ≤ b
      · rw [if_pos ⟨by omega, hcb, by omega⟩, if_pos (Or.inr hcb)]
      · rw [if_neg (by omega), if_neg (fun hin => hr (hmem.mp hin)), if_neg (by omega)]
  · simp only [hey, hex, if_pos, if_neg, ite_false, ite_true]
    rw [memset_zero_apply]
    have hc0 : excess_cols li ex = 0 := by simp [excess_cols, hex]
    have hmem : ((li.tile_height - excess_rows li ey) * (li.tile_width * BYTES_PER_PIXEL) ≤
        row * (li.tile_width * BYTES_PER_PIXEL) + b ∧
        row * (li.tile_width * BYTES_PER_PIXEL) + b <
          (li.tile_height - excess_rows li ey) * (li.tile_width * BYTES_PER_PIXEL) +
            excess_rows li ey * (li.tile_width * BYTES_PER_PIXEL)) ↔
        (li.tile_height - excess_rows li ey ≤ row) := by
      rw [hth]
      constructor
      · intro hin
        by_contra hc
        push_neg at hc
        have := (row_block_lt hb row (li.tile_height - excess_rows li ey)).mpr hc
        omega
      · intro hge
        have := (row_block_lt hb row (li.tile_height - excess_rows li ey)).not.mpr (by omega)
        omega
    by_cases hr : li.tile_height - excess_rows li ey ≤ row
    · rw [if_pos (hmem.mpr hr), if_pos (Or.inl hr)]
    · rw [if_neg (fun hin => hr (hmem.mp hin)), if_neg (by rw [hc0, Nat.sub_zero]; omega)]
  · simp only [hey, hex, if_pos, if_neg, ite_false, ite_true]
    rw [clear_row_tails_apply _ (le_of_eq hwl) _ _ _ hb]
    have hr0 : excess_rows li ey = 0 := by simp [excess_rows, hey]
    by_cases hcb : (li.tile_width - excess_cols li ex) * BYTES_PER_PIXEL ≤ b
    · rw [if_pos ⟨hrow, hcb, by omega⟩, if_pos (Or.inr hcb)]
    · rw [if_neg (by omega), if_neg (by rw [hr0, Nat.sub_zero]; omega)]
  · simp only [hey, hex, if_neg, ite_false]
    have hr0 : excess_rows li ey = 0 := by simp [excess_rows, hey]
    have hc0 : excess_cols li ex = 0 := by simp [excess_cols, hex]
    rw [if_neg (by rw [hr0, hc0, Nat.sub_zero, Nat.sub_zero]; omega)]

/-- A pc value that is not mid-job. -/
def worker_idle (s : worker_state) : Prop :=
  s.pc = .loopTop ∨ s.pc = .blocked ∨ s.pc = .afterWait

/-- One step of a disabled worker never picks up a job and leaves the
queue and its completed-job list untouched. -/
lemma worker_disabled_step (idx active : ℕ) (h : active < idx) (s : worker_state)
    (hs : worker_idle s) :
    (worker_step idx active s).queue = s.queue ∧
    (worker_step idx active s).done = s.done ∧
    worker_idle (worker_step idx active s) := by
  rcases hs with h1 | h1 | h1
  · simp [worker_step, h1, h, worker_idle]
  · cases hq : s.queue <;> simp [worker_step, h1, hq, worker_idle]
  · simp [worker_step, h1, h, worker_idle]

/-- Any number of steps of a disabled worker never picks up a job. -/
lemma worker_disabled_iterate (idx active : ℕ) (h : active < idx) (s : worker_state)
    (hs : worker_idle s) :
    ∀ n, ((worker_step idx active)^[n] s).queue = s.queue ∧
      ((worker_step idx active)^[n] s).done = s.done ∧
      worker_idle ((worker_step idx active)^[n] s) := by
  intro n
  induction n with
  | zero => exact ⟨rfl, rfl, hs⟩
  | succ n ih =>
    rw [Function.iterate_succ_apply']
    obtain ⟨hq, hd, hidle⟩ := ih
    obtain ⟨hq2, hd2, hidle2⟩ := worker_disabled_step idx active h _ hidle
    exact ⟨hq2.trans hq, hd2.trans hd, hidle2⟩

/-- An enabled worker sitting at the top of its loop drains the whole
queue, two steps per job (pick up, run to completion). -/
lemma worker_drain (idx active : ℕ) (h : idx ≤ active) :
    ∀ (q done : List ℕ),
      (worker_step idx active)^[2 * q.length] ⟨.loopTop, q, done⟩ =
        ⟨.loopTop, [], done ++ q⟩ := by
  intro q
  induction q with
  | nil => intro done; simp
  | cons j rest ih =>
    intro done
    have hlen : 2 * (j :: rest).length = 2 * rest.length + 2 := by
      simp [List.length_cons]; ring
    rw [hlen, Function.iterate_add_apply]
    have h2 : (worker_step idx active)^[2] ⟨.loopTop, j :: rest, done⟩ =
        ⟨.loopTop, rest, done ++ [j]⟩ := by
      have hna : ¬ active < idx := Nat.not_lt.mpr h
      show worker_step idx active (worker_step idx active ⟨.loopTop, j :: rest, done⟩) = _
      simp [worker_step, hna]
    rw [h2, ih]
    simp

/-! ## Evaluation of the concrete instances -/

lemma find_A_0 : find_wsi_level wsiA.levels 0 0 = some 0 := by decide

lemma find_A_1 : find_wsi_level wsiA.levels 1 1 = none := by decide

lemma find_A_2 : find_wsi_level wsiA.levels 2 1 = some 1 := by decide

lemma load_wsi_repA : load_wsi repA = .ok wsiA := by
  simp [load_wsi, repA, wsiA, parse_mpp, make_wsi_level, WSI_TILE_DIM, WSI_MAX_LEVELS,
        lvlA0, lvlA1]
  norm_num

lemma load_image_repA : load_image_openslide repA = .ok imageA := by
  have hside : 0 < ((wsiA.levels.headD default).x_tile_side_in_um) := by
    norm_num [wsiA, lvlA0]
  have hlen : wsiA.levels.length = 2 := rfl
  have hmax : wsiA.max_downsample_level = 2 := rfl
  unfold load_image_openslide
  rw [load_wsi_repA]
  simp only [hmax, hlen, if_pos hside]
  norm_num
  simp only [build_levels, find_A_0, find_A_1, find_A_2]
  norm_num [find_A_0, find_A_1, find_A_2]
  simp [make_matched, make_placeholder, wsiA, lvlA0, lvlA1, imageA, liA0, liA1, liA2,
        image_zero, WSI_MAX_LEVELS]
  norm_num

lemma load_wsi_repB : load_wsi repB = .ok wsiB := by
  simp [load_wsi, repB, wsiB, parse_mpp, make_wsi_level, WSI_TILE_DIM, WSI_MAX_LEVELS]

/-! ## Claims -/

/-- C7: executing a decode job on a level whose LevelImage has exists =
false hits ASSERT(level_image->exists) and aborts before any decode work
(the backend decode results are never consulted); a placeholder level is
never silently decoded. -/
theorem C7_placeholder_decode_aborts (image : image_t) (task : load_tile_task_t)
    (dec : backend_decode_results)
    (hex : (task_level_image image task).lexists = false) :
    load_tile_func image task dec = .abort := by
  simp [load_tile_func, hex]

theorem C7_witness :
    (task_level_image imgP taskI).lexists = false ∧
    load_tile_func imgP taskI dec0 = .abort :=
  ⟨rfl, C7_placeholder_decode_aborts imgP taskI dec0 rfl⟩

/-- C1 (amended): when the backend decode call fails, the partially
allocated pixel buffer is freed, but a completion message IS still handed
to the completion callback and enqueued on the completion queue — exactly
one message, carrying a NULL pixel buffer; the failure is observable
through the NULL buffer, not through the absence of a message. -/
theorem C1_failed_decode_still_enqueues (image : image_t) (task : load_tile_task_t)
    (dec : backend_decode_results)
    (hex : (task_level_image image task).lexists = true)
    (hpx : 0 < (task_level_image image task).x_tile_side_in_um)
    (hpy : 0 < (task_level_image image task).y_tile_side_in_um)
    (hty : image.type = image_type_t.wsi)
    (hfail : (image.backend = image_backend_t.tiff ∧ dec.tiff_pixels = none) ∨
             (image.backend = image_backend_t.dicom ∧ dec.dicom_pixels = none)) :
    load_tile_func image task dec =
      .ok { failed := true, pixel_memory := none,
            completion_enqueued :=
              [{ pixel_memory := none,
                 tile_width := (task_level_image image task).tile_width,
                 tile_height := (task_level_image image task).tile_height,
                 scale := task.level,
                 tile_index := task.tile_y * (task_level_image image task).width_in_tiles
                   + task.tile_x }] } := by
  rcases hfail with ⟨hbk, hdec⟩ | ⟨hbk, hdec⟩ <;>
    simp [load_tile_func, load_tile_finish, hex, hpx, hpy, hty, hbk, hdec]

theorem C1_witness :
    decFail.tiff_pixels = none ∧
    load_tile_func imgT taskI decFail =
      .ok { failed := true, pixel_memory := none,
            completion_enqueued :=
              [{ pixel_memory := none,
                 tile_width := (task_level_image imgT taskI).tile_width,
                 tile_height := (task_level_image imgT taskI).tile_height,
                 scale := taskI.level,
                 tile_index := taskI.tile_y * (task_level_image imgT taskI).width_in_tiles
                   + taskI.tile_x }] } :=
  ⟨rfl, C1_failed_decode_still_enqueues imgT taskI decFail rfl
    (by norm_num [task_level_image, imgT, taskI, liT])
    (by norm_num [task_level_image, imgT, taskI, liT])
    rfl (Or.inl ⟨rfl, rfl⟩)⟩

/-- C1 counterexample: a TIFF tile decode job whose backend call fails
(NULL pixels) still enqueues one completion message, refuting the claim
that no completion message is enqueued for a failed tile. -/
theorem C1_counterexample :
    decFail.tiff_pixels = none ∧
    completion_count (load_tile_func imgT taskI decFail) = 1 ∧ (1 : ℕ) ≠ 0 :=
  ⟨rfl, by decide, by decide⟩

/-- C2 (amended): boundary trimming happens only on the TIFF backend path.
For a TIFF tile decode, every byte of the returned buffer whose row lies in
the excess row range, or whose in-row offset lies at or beyond the trimmed
width, is zero, and every other byte is exactly the decoded byte; the
excess row and column counts are the truncated (floored) fractions of the
tile extent, so they cover at most the exact excess. Other backends return
the decoded buffer without any trimming (see the counterexample). -/
theorem C2_tiff_trim_characterization (image : image_t) (task : load_tile_task_t)
    (dec : backend_decode_results) (px : pixel_buffer_t) (row b : ℕ)
    (hex : (task_level_image image task).lexists = true)
    (hpx : 0 < (task_level_image image task).x_tile_side_in_um)
    (hpy : 0 < (task_level_image image task).y_tile_side_in_um)
    (hty : image.type = image_type_t.wsi)
    (hbk : image.backend = image_backend_t.tiff)
    (hdec : dec.tiff_pixels = some px)
    (her : excess_rows (task_level_image image task) (tile_y_excess image task) ≤
      (task_level_image image task).tile_height)
    (hec : excess_cols (task_level_image image task) (tile_x_excess image task) ≤
      (task_level_image image task).tile_width)
    (hrow : row < (task_level_image image task).tile_height)
    (hb : b < (task_level_image image task).tile_width * BYTES_PER_PIXEL) :
    result_buffer_byte (load_tile_func image task dec)
        (row * ((task_level_image image task).tile_width * BYTES_PER_PIXEL) + b) =
      some (if (task_level_image image task).tile_height -
              excess_rows (task_level_image image task) (tile_y_excess image task) ≤ row ∨
            ((task_level_image image task).tile_width -
              excess_cols (task_level_image image task) (tile_x_excess image task)) *
                BYTES_PER_PIXEL ≤ b
          then 0
          else px (row * ((task_level_image image task).tile_width * BYTES_PER_PIXEL) + b)) := by
  have h1 : load_tile_func image task dec =
      .ok (load_tile_finish (task_level_image image task) task.level
        (task.tile_y * (task_level_image image task).width_in_tiles + task.tile_x) false
        (tiff_trim (task_level_image image task) (tile_x_excess image task)
          (tile_y_excess image task) px)) := by
    simp [load_tile_func, hex, hpx, hpy, hty, hbk, hdec]
  rw [h1]
  simp only [result_buffer_byte, load_tile_finish, Bool.false_eq_true, if_neg,
    ite_false, Option.map_some']
  rw [tiff_trim_apply _ _ _ _ her hec row b hrow hb]

theorem C2_witness :
    (task_level_image imgT taskE).lexists = true ∧
    result_buffer_byte (load_tile_func imgT taskE decOk)
        (1 * ((task_level_image imgT taskE).tile_width * BYTES_PER_PIXEL) + 0) =
      some (if (task_level_image imgT taskE).tile_height -
              excess_rows (task_level_image imgT taskE) (tile_y_excess imgT taskE) ≤ 1 ∨
            ((task_level_image imgT taskE).tile_width -
              excess_cols (task_level_image imgT taskE) (tile_x_excess imgT taskE)) *
                BYTES_PER_PIXEL ≤ 0
          then 0
          else (fun _ => 7)
            (1 * ((task_level_image imgT taskE).tile_width * BYTES_PER_PIXEL) + 0)) :=
  ⟨rfl, C2_tiff_trim_characterization imgT taskE decOk (fun _ => 7) 1 0 rfl
    (by norm_num [task_level_image, imgT, taskE, liT])
    (by norm_num [task_level_image, imgT, taskE, liT])
    rfl rfl rfl
    (by norm_num [excess_rows, tile_y_excess, task_level_image, imgT, taskE, liT])
    (by norm_num [excess_cols, tile_x_excess, task_level_image, imgT, taskE, liT])
    (by norm_num [task_level_image, imgT, taskE, liT])
    (by norm_num [task_level_image, imgT, taskE, liT, BYTES_PER_PIXEL])⟩

/-- C2 counterexample: on the OpenSlide backend no trimming is performed.
The bottom-right tile of imgO extends one pixel past the image extent on
the right, yet byte 4 (row 0, the excess pixel column) of the returned
buffer is the decoded value 7, not the fully transparent 0 the claim
requires for every backend kind. -/
theorem C2_counterexample :
    0 < tile_x_excess imgO taskE ∧
    imgO.backend = image_backend_t.openslide ∧
    result_buffer_byte (load_tile_func imgO taskE decOk) 4 = some 7 ∧ (7 : ℕ) ≠ 0 :=
  ⟨by norm_num [tile_x_excess, task_level_image, imgO, taskE, liT], rfl,
   by decide, by decide⟩

/-- C3 (amended): when the backend reports more native levels than the
computed number of logical levels, image-open calls panic() and the
process aborts: no Image value — neither a partial image nor an
is_valid = false open-failure result — is ever returned to the caller,
and the level ladder is never silently truncated. -/
theorem C3_overreported_levels_panic (rep : openslide_report) (wsi : wsi_t)
    (h : load_wsi rep = .ok wsi)
    (hside : 0 < (wsi.levels.headD default).x_tile_side_in_um)
    (hover : wsi.max_downsample_level + 1 < wsi.levels.length) :
    load_image_openslide rep = .abort := by
  have hlen : 0 < wsi.levels.length := by omega
  unfold load_image_openslide
  rw [h]
  simp only [if_pos hside, if_pos hlen, if_pos hover]

theorem C3_witness :
    load_wsi repB = .ok wsiB ∧
    wsiB.max_downsample_level + 1 < wsiB.levels.length ∧
    load_image_openslide repB = .abort :=
  ⟨load_wsi_repB, by decide,
   C3_overreported_levels_panic repB wsiB load_wsi_repB (by norm_num [wsiB]) (by decide)⟩

/-- C3 counterexample: repB reports two native levels but only one logical
level is computed; image-open panics (aborts the process) instead of
surfacing an open failure to the caller — no Image value, not even an
invalid one, is returned. -/
theorem C3_counterexample :
    load_image_openslide repB = .abort ∧
    ¬ ∃ img, load_image_openslide repB = .ok img ∧ img.is_valid = false := by
  have hside : (0:ℚ) < ((wsiB.levels.headD default).x_tile_side_in_um) := by
    norm_num [wsiB]
  have hlen : 0 < wsiB.levels.length := by decide
  have hover : wsiB.max_downsample_level + 1 < wsiB.levels.length := by decide
  have habort : load_image_openslide repB = .abort := by
    unfold load_image_openslide
    rw [load_wsi_repB]
    simp only [if_pos hside, if_pos hlen, if_pos hover]
  refine ⟨habort, ?_⟩
  rintro ⟨img, himg, -⟩
  rw [habort] at himg
  exact absurd himg (by simp)

/-- The per-level fields load_wsi computes satisfy the grid invariant:
tile_count is the product of the grid dimensions, and each grid dimension
is the ceiling division of the native pixel dimension by the tile size. -/
lemma make_wsi_level_grid (mx my : ℚ) (l : openslide_level_report) :
    (make_wsi_level mx my l).tile_count =
      (make_wsi_level mx my l).width_in_tiles * (make_wsi_level mx my l).height_in_tiles ∧
    (make_wsi_level mx my l).width_in_tiles = (l.width + WSI_TILE_DIM - 1) / WSI_TILE_DIM ∧
    (make_wsi_level mx my l).height_in_tiles = (l.height + WSI_TILE_DIM - 1) / WSI_TILE_DIM := by
  refine ⟨rfl, ?_, ?_⟩ <;>
    · simp only [make_wsi_level]
      exact grid_eq_ceil_div _

/-- C4: for every opened image and every logical level, including the
synthesized placeholders (whose grid stays zeroed, so the equation holds
with 0 = 0 * 0), tile_count = width_in_tiles * height_in_tiles; for an
existing level the grid dimensions are the ceiling divisions of the
matched native level's pixel dimensions by the tile size. -/
theorem C4_tile_count_eq_grid (rep : openslide_report) (image : image_t)
    (h : load_image_openslide rep = .ok image) :
    ∀ li ∈ image.level_images,
      li.tile_count = li.width_in_tiles * li.height_in_tiles ∧
      (li.lexists = true →
        ∃ hp : li.pyramid_image_index < rep.levels.length,
          li.width_in_tiles =
            ((rep.levels.get ⟨li.pyramid_image_index, hp⟩).width + WSI_TILE_DIM - 1) /
              WSI_TILE_DIM ∧
          li.height_in_tiles =
            ((rep.levels.get ⟨li.pyramid_image_index, hp⟩).height + WSI_TILE_DIM - 1) /
              WSI_TILE_DIM) := by
  obtain ⟨wsi, hw, -, -, -, -, -, -, -, -, -, hlv⟩ := load_image_ok_destruct rep image h
  have hlev := (load_wsi_ok rep wsi hw).2.2.2.2.2.2.2
  rw [hlv]
  intro li hli
  refine build_levels_mem wsi wsi.tile_width wsi.tile_height wsi.mpp_x wsi.mpp_y
    (fun li => li.tile_count = li.width_in_tiles * li.height_in_tiles ∧
      (li.lexists = true →
        ∃ hp : li.pyramid_image_index < rep.levels.length,
          li.width_in_tiles =
            ((rep.levels.get ⟨li.pyramid_image_index, hp⟩).width + WSI_TILE_DIM - 1) /
              WSI_TILE_DIM ∧
          li.height_in_tiles =
            ((rep.levels.get ⟨li.pyramid_image_index, hp⟩).height + WSI_TILE_DIM - 1) /
              WSI_TILE_DIM))
    ?_ ?_ _ _ _ li hli
  · intro idx hidx
    have hidx' : idx < rep.levels.length := by
      rw [hlev, List.length_map] at hidx; exact hidx
    have hfl : wsi.levels.getD idx default =
        make_wsi_level wsi.mpp_x wsi.mpp_y (rep.levels.get ⟨idx, hidx'⟩) := by
      rw [hlev]
      rw [List.getD_eq_getElem (rep.levels.map (make_wsi_level wsi.mpp_x wsi.mpp_y)) default
        (by simpa using hidx')]
      simp
    obtain ⟨hc, hwit, hhit⟩ := make_wsi_level_grid wsi.mpp_x wsi.mpp_y
      (rep.levels.get ⟨idx, hidx'⟩)
    constructor
    · show (wsi.levels.getD idx default).tile_count =
        (wsi.levels.getD idx default).width_in_tiles *
          (wsi.levels.getD idx default).height_in_tiles
      rw [hfl]; exact hc
    · rintro -
      refine ⟨hidx', ?_, ?_⟩
      · show (wsi.levels.getD idx default).width_in_tiles = _
        rw [hfl, hwit]
        rfl
      · show (wsi.levels.getD idx default).height_in_tiles = _
        rw [hfl, hhit]
        rfl
  · intro l
    refine ⟨rfl, ?_⟩
    intro hcontra
    simp [make_placeholder] at hcontra

theorem C4_witness :
    load_image_openslide repA = .ok imageA ∧
    (liA0.tile_count = liA0.width_in_tiles * liA0.height_in_tiles ∧
      (liA0.lexists = true →
        ∃ hp : liA0.pyramid_image_index < repA.levels.length,
          liA0.width_in_tiles =
            ((repA.levels.get ⟨liA0.pyramid_image_index, hp⟩).width + WSI_TILE_DIM - 1) /
              WSI_TILE_DIM ∧
          liA0.height_in_tiles =
            ((repA.levels.get ⟨liA0.pyramid_image_index, hp⟩).height + WSI_TILE_DIM - 1) /
              WSI_TILE_DIM)) :=
  ⟨load_image_repA,
   C4_tile_count_eq_grid repA imageA load_image_repA liA0 (by simp [imageA])⟩

/-- C5: the level mapper never matches one native level to two different
logical levels: along the built stack, the matched native indices of
existing levels strictly increase, so they are pairwise distinct. -/
theorem C5_native_level_never_reused (rep : openslide_report) (image : image_t)
    (h : load_image_openslide rep = .ok image) :
    ∀ (i j : ℕ) (hi : i < image.level_images.length)
      (hj : j < image.level_images.length), i < j →
      (image.level_images.get ⟨i, hi⟩).lexists = true →
      (image.level_images.get ⟨j, hj⟩).lexists = true →
      (image.level_images.get ⟨i, hi⟩).pyramid_image_index <
        (image.level_images.get ⟨j, hj⟩).pyramid_image_index := by
  obtain ⟨wsi, hw, -, -, -, -, -, -, -, -, -, hlv⟩ := load_image_ok_destruct rep image h
  intro i j hi hj hij
  have hp := build_levels_pairwise wsi wsi.tile_width wsi.tile_height wsi.mpp_x wsi.mpp_y
    (wsi.max_downsample_level + 1) 0 0
  rw [← hlv] at hp
  exact List.pairwise_iff_get.mp hp ⟨i, hi⟩ ⟨j, hj⟩ hij

theorem C5_witness :
    (imageA.level_images.get ⟨0, by decide⟩).lexists = true ∧
    (imageA.level_images.get ⟨2, by decide⟩).lexists = true ∧
    (imageA.level_images.get ⟨0, by decide⟩).pyramid_image_index <
      (imageA.level_images.get ⟨2, by decide⟩).pyramid_image_index :=
  ⟨rfl, rfl,
   C5_native_level_never_reused repA imageA load_image_repA 0 2 (by decide) (by decide)
     (by decide) rfl rfl⟩

/-- C6: the built level stack is dense: its length is the level count, the
level at index L has downsample factor 2 ^ L, and a synthesized
placeholder (exists = false) inherits the base tile pixel dimensions and
scales the base microns-per-pixel by 2 ^ L. -/
theorem C6_dense_pow2_levels (rep : openslide_report) (image : image_t)
    (h : load_image_openslide rep = .ok image) :
    image.level_images.length = image.level_count ∧
    ∀ (L : ℕ) (hL : L < image.level_images.length),
      (image.level_images.get ⟨L, hL⟩).downsample_factor = 2 ^ L ∧
      ((image.level_images.get ⟨L, hL⟩).lexists = false →
        (image.level_images.get ⟨L, hL⟩).tile_width = image.tile_width ∧
        (image.level_images.get ⟨L, hL⟩).tile_height = image.tile_height ∧
        (image.level_images.get ⟨L, hL⟩).um_per_pixel_x = image.mpp_x * 2 ^ L ∧
        (image.level_images.get ⟨L, hL⟩).um_per_pixel_y = image.mpp_y * 2 ^ L) := by
  obtain ⟨wsi, hw, hmx, hmy, -, htw, hth, -, -, hlc, -, hlv⟩ :=
    load_image_ok_destruct rep image h
  have hlev := (load_wsi_ok rep wsi hw).2.2.2.2.2.2.2
  constructor
  · rw [hlv, build_levels_length, hlc]
  · intro L hL
    have hfac : ∀ idx, idx < wsi.levels.length →
        (wsi.levels.getD idx default).downsample_factor =
          2 ^ (wsi.levels.getD idx default).downsample_level := by
      intro idx hidx
      have hidx' : idx < rep.levels.length := by
        rw [hlev, List.length_map] at hidx; exact hidx
      rw [hlev, List.getD_eq_getElem _ _ (by simpa using hidx')]
      simp [make_wsi_level]
    have hsome : (build_levels wsi wsi.tile_width wsi.tile_height wsi.mpp_x wsi.mpp_y
        (wsi.max_downsample_level + 1) 0 0)[L]? = some (image.level_images.get ⟨L, hL⟩) := by
      rw [← hlv, List.get_eq_getElem]
      exact List.getElem?_eq_getElem hL
    have hch := build_levels_get? wsi wsi.tile_width wsi.tile_height wsi.mpp_x wsi.mpp_y
      hfac _ 0 0 L _ hsome
    simp only [Nat.zero_add] at hch
    refine ⟨hch.1, fun hf => ?_⟩
    obtain ⟨h1, h2, h3, h4⟩ := hch.2 hf
    exact ⟨by rw [h1, htw], by rw [h2, hth], by rw [h3, hmx], by rw [h4, hmy]⟩

theorem C6_witness :
    imageA.level_images.length = imageA.level_count ∧
    ((imageA.level_images.get ⟨1, by decide⟩).downsample_factor = 2 ^ 1 ∧
      ((imageA.level_images.get ⟨1, by decide⟩).lexists = false →
        (imageA.level_images.get ⟨1, by decide⟩).tile_width = imageA.tile_width ∧
        (imageA.level_images.get ⟨1, by decide⟩).tile_height = imageA.tile_height ∧
        (imageA.level_images.get ⟨1, by decide⟩).um_per_pixel_x = imageA.mpp_x * 2 ^ 1 ∧
        (imageA.level_images.get ⟨1, by decide⟩).um_per_pixel_y = imageA.mpp_y * 2 ^ 1)) :=
  ⟨(C6_dense_pow2_levels repA imageA load_image_repA).1,
   (C6_dense_pow2_levels repA imageA load_image_repA).2 1 (by decide)⟩

/-- C9: every tile slot of an existing level is initialized
self-consistently: tiles[i].tile_index = i, tiles[i].tile_x =
i mod width_in_tiles and tiles[i].tile_y = i div width_in_tiles. -/
theorem C9_tiles_self_consistent (rep : openslide_report) (image : image_t)
    (h : load_image_openslide rep = .ok image) :
    ∀ li ∈ image.level_images, li.lexists = true →
      li.tiles.length = li.tile_count ∧
      ∀ (i : ℕ) (hi : i < li.tiles.length),
        (li.tiles.get ⟨i, hi⟩).tile_index = i ∧
        (li.tiles.get ⟨i, hi⟩).tile_x = i % li.width_in_tiles ∧
        (li.tiles.get ⟨i, hi⟩).tile_y = i / li.width_in_tiles := by
  obtain ⟨wsi, hw, -, -, -, -, -, -, -, -, -, hlv⟩ := load_image_ok_destruct rep image h
  rw [hlv]
  intro li hli
  refine build_levels_mem wsi wsi.tile_width wsi.tile_height wsi.mpp_x wsi.mpp_y
    (fun li => li.lexists = true →
      li.tiles.length = li.tile_count ∧
      ∀ (i : ℕ) (hi : i < li.tiles.length),
        (li.tiles.get ⟨i, hi⟩).tile_index = i ∧
        (li.tiles.get ⟨i, hi⟩).tile_x = i % li.width_in_tiles ∧
        (li.tiles.get ⟨i, hi⟩).tile_y = i / li.width_in_tiles)
    ?_ ?_ _ _ _ li hli
  · rintro idx hidx -
    constructor
    · simp [make_matched]
    · intro i hi
      simp only [make_matched, List.length_map, List.length_range] at hi
      refine ⟨?_, ?_, ?_⟩ <;>
        simp [make_matched, List.get_eq_getElem, List.getElem_map, List.getElem_range]
  · intro l hcontra
    simp [make_placeholder] at hcontra

theorem C9_witness :
    liA0.lexists = true ∧
    liA0.tiles.length = liA0.tile_count ∧
    ((liA0.tiles.get ⟨5, by decide⟩).tile_index = 5 ∧
      (liA0.tiles.get ⟨5, by decide⟩).tile_x = 5 % liA0.width_in_tiles ∧
      (liA0.tiles.get ⟨5, by decide⟩).tile_y = 5 / liA0.width_in_tiles) :=
  ⟨rfl,
   (C9_tiles_self_consistent repA imageA load_image_repA liA0 (by simp [imageA]) rfl).1,
   (C9_tiles_self_consistent repA imageA load_image_repA liA0 (by simp [imageA]) rfl).2 5
     (by decide)⟩

/-- C10: when opening through OpenSlide, each axis of microns-per-pixel
defaults to 1 unless the property is present with a positive parsed value,
is_mpp_known is true exactly when at least one axis yielded a positive
value, and physical sizes are computed as pixels times microns-per-pixel,
default included. -/
theorem C10_mpp_defaults (rep : openslide_report) (wsi : wsi_t)
    (h : load_wsi rep = .ok wsi) :
    (wsi.mpp_x = match rep.mpp_x_prop with
      | none => 1
      | some v => if 0 < v then v else 1) ∧
    (wsi.mpp_y = match rep.mpp_y_prop with
      | none => 1
      | some v => if 0 < v then v else 1) ∧
    (wsi.is_mpp_known = true ↔
      (∃ v, rep.mpp_x_prop = some v ∧ 0 < v) ∨
      (∃ v, rep.mpp_y_prop = some v ∧ 0 < v)) ∧
    (∀ image, load_image_openslide rep = .ok image →
      image.width_in_um = (wsi.width : ℚ) * wsi.mpp_x ∧
      image.height_in_um = (wsi.height : ℚ) * wsi.mpp_y) := by
  obtain ⟨-, -, -, -, hmx, hmy, hkn, -⟩ := load_wsi_ok rep wsi h
  refine ⟨?_, ?_, ?_, ?_⟩
  · rw [hmx]
    cases hx : rep.mpp_x_prop with
    | none => simp [parse_mpp]
    | some v => by_cases hv : 0 < v <;> simp [parse_mpp, hv]
  · rw [hmy]
    cases hy : rep.mpp_y_prop with
    | none => simp [parse_mpp]
    | some v =>
      by_cases hv : 0 < v <;>
        cases rep.mpp_x_prop <;> simp [parse_mpp, hv]
  · rw [hkn]
    rcases hx : rep.mpp_x_prop with - | vx <;> rcases hy : rep.mpp_y_prop with - | vy
    · simp [parse_mpp]
    · by_cases hv : 0 < vy <;> simp [parse_mpp, hv]
    · by_cases hv : 0 < vx <;> simp [parse_mpp, hv]
    · by_cases hvx : 0 < vx <;> by_cases hvy : 0 < vy <;>
        simp [parse_mpp, hvx, hvy]
  · intro image himg
    obtain ⟨wsi2, hw2, -, -, -, -, -, hwum, hhum, -, -, -⟩ :=
      load_image_ok_destruct rep image himg
    rw [h] at hw2
    injection hw2 with hw2
    subst hw2
    exact ⟨hwum, hhum⟩

theorem C10_witness :
    load_wsi repA = .ok wsiA ∧
    (wsiA.mpp_x = match repA.mpp_x_prop with
      | none => 1
      | some v => if 0 < v then v else 1) ∧
    (wsiA.mpp_y = match repA.mpp_y_prop with
      | none => 1
      | some v => if 0 < v then v else 1) ∧
    (wsiA.is_mpp_known = true ↔
      (∃ v, repA.mpp_x_prop = some v ∧ 0 < v) ∨
      (∃ v, repA.mpp_y_prop = some v ∧ 0 < v)) ∧
    (∀ image, load_image_openslide repA = .ok image →
      image.width_in_um = (wsiA.width : ℚ) * wsiA.mpp_x ∧
      image.height_in_um = (wsiA.height : ℚ) * wsiA.mpp_y) :=
  ⟨load_wsi_repA, C10_mpp_defaults repA wsiA load_wsi_repA⟩

/-- C8: a worker whose logical thread index exceeds the active-worker
count never starts a new job — over any number of steps it stays idle
(the enablement check runs both at the top of the loop, before blocking,
and again after waking from the semaphore) and the queue and its
completed-job list are untouched; a job it already started runs to
completion in one step regardless of the active count; and an enabled
worker left running drains the whole queue, one job per loop iteration. -/
theorem C8_disabled_worker_behavior (idx active : ℕ) :
    (active < idx →
      ∀ (s : worker_state) (n : ℕ), worker_idle s →
        ((worker_step idx active)^[n] s).queue = s.queue ∧
        ((worker_step idx active)^[n] s).done = s.done ∧
        worker_idle ((worker_step idx active)^[n] s)) ∧
    (∀ (s : worker_state) (j : ℕ), s.pc = .working j →
      (worker_step idx active s).done = s.done ++ [j] ∧
      (worker_step idx active s).queue = s.queue ∧
      (worker_step idx active s).pc = .loopTop) ∧
    (idx ≤ active →
      ∀ (q done : List ℕ),
        (worker_step idx active)^[2 * q.length] ⟨.loopTop, q, done⟩ =
          ⟨.loopTop, [], done ++ q⟩) := by
  refine ⟨?_, ?_, ?_⟩
  · intro h s n hs
    exact worker_disabled_iterate idx active h s hs n
  · intro s j hj
    simp [worker_step, hj]
  · intro h q done
    exact worker_drain idx active h q done

theorem C8_witness :
    ((2:ℕ) < 5 ∧
      ((worker_step 5 2)^[6] ⟨.loopTop, [7, 8], []⟩).queue = [7, 8] ∧
      ((worker_step 5 2)^[6] ⟨.loopTop, [7, 8], []⟩).done = []) ∧
    (worker_step 5 2 ⟨.working 9, [7], [4]⟩).done = [4] ++ [9] ∧
    ((1:ℕ) ≤ 2 ∧
      (worker_step 1 2)^[2 * [3, 4].length] ⟨.loopTop, [3, 4], []⟩ =
        ⟨.loopTop, [], [] ++ [3, 4]⟩) :=
  ⟨⟨by decide,
    ((C8_disabled_worker_behavior 5 2).1 (by decide) ⟨.loopTop, [7, 8], []⟩ 6
      (Or.inl rfl)).1,
    ((C8_disabled_worker_behavior 5 2).1 (by decide) ⟨.loopTop, [7, 8], []⟩ 6
      (Or.inl rfl)).2.1⟩,
   ((C8_disabled_worker_behavior 5 2).2.1 ⟨.working 9, [7], [4]⟩ 9 rfl).1,
   ⟨by decide, (C8_disabled_worker_behavior 1 2).2.2 (by decide) [3, 4] []⟩⟩
